import Mathlib

/-!
Shallow embedding of the covid-19 query layer of
src/django_advanced_queries/covid_19/models.py.

A database snapshot is a record of lists, one per Django model, each row
carrying its primary key and foreign keys as natural numbers.  The ORM
queryset operations used by the managers are embedded as pure functions on
that snapshot:

* filter(...)                    becomes List.filter;
* order_by("-time") / ("time")   becomes a sort by the key, descending or
  ascending; SQL promises no particular order among rows whose keys tie, so
  the deterministic embedding fixes one admissible execution (a stable
  insertion sort), and a separate relation ExecOrderByDesc describes the
  whole set of admissible executions;
* Subquery(qs[:1]) / qs[1:2]     becomes indexing the ordered row list, an
  Option (none is the SQL NULL of an empty subquery);
* values("f")                    becomes List.map of the projection;
* values(ks).annotate(Count(x))  becomes grouping by the distinct key tuples
  of the values() call that precedes annotate (Django pins GROUP BY to
  exactly those fields) with the group sizes as counts;
* .distinct()                    becomes List.dedup of the selected rows;
* Coalesce(sq, 0)                becomes Option.getD 0;
* a WHERE comparison with NULL follows SQL three-valued logic: both
  `col = v` and `NOT (col = v)` drop a row whose col is NULL, which is why
  the filters below test the Option explicitly.

Foreign-key hops (person__age, department__hospital, ...) are inner joins:
List.find? on the target table, a row with a dangling reference producing no
joined row.
-/

/-! ## Data model (the Django models, §MODELS of the source) -/

/-- MedicalExaminationResult.result choices: RESULT_HEALTHY, RESULT_CORONA,
RESULT_BOT, RESULT_DEAD. -/
inductive ExamResult where
  | Healthy
  | Corona
  | Botism
  | Dead
deriving DecidableEq

/-- Person.gender choices. -/
inductive Gender where
  | Male
  | Female
  | Other
deriving DecidableEq

/-- HospitalWorker.position choices: POSITION_DOCTOR, POSITION_NURSE. -/
inductive Position where
  | Doctor
  | Nurse
deriving DecidableEq

/-- Hospital(name, city). -/
structure Hospital where
  id : Nat
  name : String
  city : String
deriving DecidableEq

/-- Department(name, hospital): hospital is the FK to Hospital. -/
structure Department where
  id : Nat
  name : String
  hospital : Nat
deriving DecidableEq

/-- Person(name, age, gender); age is a PositiveSmallIntegerField. -/
structure Person where
  id : Nat
  name : String
  age : Nat
  gender : Gender
deriving DecidableEq

/-- HospitalWorker(person, department, position); person and department are FKs. -/
structure HospitalWorker where
  id : Nat
  person : Nat
  department : Nat
  position : Position
deriving DecidableEq

/-- Patient(person, department); both FKs. -/
structure Patient where
  id : Nat
  person : Nat
  department : Nat
deriving DecidableEq

/-- MedicalExaminationResult(time, examined_by, patient, result); time is the
examination timestamp (modelled as Nat), examined_by the FK to HospitalWorker,
patient the FK to Patient. -/
structure MedicalExaminationResult where
  id : Nat
  time : Nat
  examined_by : Nat
  patient : Nat
  result : ExamResult
deriving DecidableEq

/-- A point-in-time-consistent snapshot of all five tables. -/
structure Snapshot where
  hospitals : List Hospital
  departments : List Department
  persons : List Person
  workers : List HospitalWorker
  patients : List Patient
  exams : List MedicalExaminationResult
deriving DecidableEq

/-! ## ORDER BY: sorting infrastructure -/

/-- Row order of ORDER BY key DESC: a may come before b when key b ≤ key a. -/
def keyDesc {α : Type} (key : α → Nat) (a b : α) : Prop := key b ≤ key a

/-- Row order of ORDER BY key ASC: a may come before b when key a ≤ key b. -/
def keyAsc {α : Type} (key : α → Nat) (a b : α) : Prop := key a ≤ key b

instance {α : Type} (key : α → Nat) : DecidableRel (keyDesc key) :=
  fun a b => inferInstanceAs (Decidable (key b ≤ key a))

instance {α : Type} (key : α → Nat) : DecidableRel (keyAsc key) :=
  fun a b => inferInstanceAs (Decidable (key a ≤ key b))

instance {α : Type} (key : α → Nat) : IsTotal α (keyDesc key) :=
  ⟨fun a b => Nat.le_total (key b) (key a)⟩

instance {α : Type} (key : α → Nat) : IsTotal α (keyAsc key) :=
  ⟨fun a b => Nat.le_total (key a) (key b)⟩

instance {α : Type} (key : α → Nat) : IsTrans α (keyDesc key) :=
  ⟨fun _ _ _ h1 h2 => Nat.le_trans h2 h1⟩

instance {α : Type} (key : α → Nat) : IsTrans α (keyAsc key) :=
  ⟨fun _ _ _ h1 h2 => Nat.le_trans h1 h2⟩

/-- One admissible (deterministic, stable) execution of ORDER BY key DESC. -/
def orderByDesc {α : Type} (key : α → Nat) (l : List α) : List α :=
  l.insertionSort (keyDesc key)

/-- One admissible (deterministic, stable) execution of ORDER BY key ASC. -/
def orderByAsc {α : Type} (key : α → Nat) (l : List α) : List α :=
  l.insertionSort (keyAsc key)

/-- The set of ALL row orders a database may return for ORDER BY key DESC on
the rows l: any permutation of l that is sorted by the key, descending.  SQL
fixes nothing further, in particular not the relative order of rows whose
keys are equal. -/
def ExecOrderByDesc {α : Type} (key : α → Nat) (l l2 : List α) : Prop :=
  l2.Perm l ∧ l2.Sorted (keyDesc key)

theorem orderByDesc_exec {α : Type} (key : α → Nat) (l : List α) :
    ExecOrderByDesc key l (orderByDesc key l) :=
  ⟨List.perm_insertionSort _ l, List.sorted_insertionSort _ l⟩

/-- The head of any key-descending ordering of l is a member of l with
maximal key. -/
theorem head_of_sorted_desc {α : Type} (key : α → Nat) {l l2 : List α} {e : α}
    (hperm : l2.Perm l) (hsort : l2.Sorted (keyDesc key))
    (he : l2.head? = some e) : e ∈ l ∧ ∀ x ∈ l, key x ≤ key e := by
  cases l2 with
  | nil => cases he
  | cons a t =>
    have ha : a = e := by simpa using he
    subst ha
    refine ⟨hperm.mem_iff.mp (List.mem_cons_self a t), ?_⟩
    intro x hx
    have hx2 : x ∈ a :: t := hperm.mem_iff.mpr hx
    rcases List.mem_cons.mp hx2 with h | h
    · exact h ▸ Nat.le_refl _
    · exact (List.pairwise_cons.mp hsort).1 x h

/-- The head of any key-ascending ordering of l is a member of l with
minimal key. -/
theorem head_of_sorted_asc {α : Type} (key : α → Nat) {l l2 : List α} {e : α}
    (hperm : l2.Perm l) (hsort : l2.Sorted (keyAsc key))
    (he : l2.head? = some e) : e ∈ l ∧ ∀ x ∈ l, key e ≤ key x := by
  cases l2 with
  | nil => cases he
  | cons a t =>
    have ha : a = e := by simpa using he
    subst ha
    refine ⟨hperm.mem_iff.mp (List.mem_cons_self a t), ?_⟩
    intro x hx
    have hx2 : x ∈ a :: t := hperm.mem_iff.mpr hx
    rcases List.mem_cons.mp hx2 with h | h
    · exact h ▸ Nat.le_refl _
    · exact (List.pairwise_cons.mp hsort).1 x h

theorem orderByDesc_eq_nil_iff {α : Type} (key : α → Nat) (l : List α) :
    orderByDesc key l = [] ↔ l = [] := by
  constructor
  · intro h
    have hp := List.perm_insertionSort (keyDesc key) l
    rw [orderByDesc] at h
    rw [h] at hp
    exact (hp.symm.eq_nil)
  · intro h
    subst h
    rfl

theorem orderByAsc_eq_nil_iff {α : Type} (key : α → Nat) (l : List α) :
    orderByAsc key l = [] ↔ l = [] := by
  constructor
  · intro h
    have hp := List.perm_insertionSort (keyAsc key) l
    rw [orderByAsc] at h
    rw [h] at hp
    exact (hp.symm.eq_nil)
  · intro h
    subst h
    rfl

/-! ## Shared relational helpers (FK joins) -/

/-- MedicalExaminationResult.objects.filter(patient=pid): all examination rows
of the patient with primary key pid. -/
def examsOfPatient (db : Snapshot) (pid : Nat) : List MedicalExaminationResult :=
  db.exams.filter (fun e => e.patient == pid)

/-- The i-th row of Subquery(MedicalExaminationResult.objects
.filter(patient=pid).order_by("-time").values("result")): index 0 is the
latest result of the patient, index 1 the second-latest, none the SQL NULL of
a subquery with too few rows. -/
def resultAt (db : Snapshot) (pid : Nat) (i : Nat) : Option ExamResult :=
  ((orderByDesc MedicalExaminationResult.time (examsOfPatient db pid)).map
    (fun e => e.result))[i]?

/-- The department__hospital hop of a patient: hospital id of the patient's
department (inner join on Department). -/
def patientHospital (db : Snapshot) (p : Patient) : Option Nat :=
  (db.departments.find? (fun d => d.id == p.department)).map (fun d => d.hospital)

/-- The department__hospital hop of a hospital worker. -/
def workerHospital (db : Snapshot) (w : HospitalWorker) : Option Nat :=
  (db.departments.find? (fun d => d.id == w.department)).map (fun d => d.hospital)

/-- The person__age hop of a hospital worker (inner join on Person). -/
def workerAge (db : Snapshot) (w : HospitalWorker) : Option Nat :=
  (db.persons.find? (fun q => q.id == w.person)).map (fun q => q.age)

/-- The patient__department__hospital hop of an examination row. -/
def examHospital (db : Snapshot) (e : MedicalExaminationResult) : Option Nat :=
  (db.patients.find? (fun p => p.id == e.patient)).bind (fun p => patientHospital db p)

/-! ## SickPersonsMixin / PatientManager -/

/-- The WHERE clause of get_sick_records,
~Q(latest_result=RESULT_HEALTHY) & ~Q(latest_result=RESULT_DEAD), under SQL
three-valued logic: when the latest_result subquery is NULL (a patient with
no examinations) both comparisons are unknown and the row is dropped. -/
def sickCond : Option ExamResult → Bool
  | none => false
  | some r => !(r == ExamResult.Healthy) && !(r == ExamResult.Dead)

/-- PatientManager.get_sick_patients = SickPersonsMixin.get_sick_records with
patient_id_attribute="id": annotate each patient with
latest_result=Subquery(latest_exam[:1]) and keep the rows passing sickCond. -/
def get_sick_patients (db : Snapshot) : List Patient :=
  db.patients.filter (fun p => sickCond (resultAt db p.id 0))

/-- PatientManager.filter_by_examinations_results_options(results):
filter(medical_examination_results__result__in=results).distinct().
The reverse FK filter joins each patient row with each of its examination
rows whose result is in the list (one joined row per matching examination)
and .distinct() deduplicates the selected patient rows. -/
def filter_by_examinations_results_options (db : Snapshot)
    (results : List ExamResult) : List Patient :=
  (db.patients.flatMap (fun p =>
    (db.exams.filter (fun e => e.patient == p.id && decide (e.result ∈ results))).map
      (fun _ => p))).dedup

/-- The exam_count annotation of get_highest_num_of_patient_medical_examinations:
Count("medical_examination_results") per patient, in table order. -/
def patientExamCounts (db : Snapshot) : List Nat :=
  db.patients.map (fun p => (examsOfPatient db p.id).length)

/-- PatientManager.get_highest_num_of_patient_medical_examinations: annotate
every patient with its exam_count, order_by("-exam_count"),
values("exam_count"), .first().  first() is None on an empty queryset and the
source then evaluates exams_king["exam_count"], which raises; the embedding
returns none for that failing execution. -/
def get_highest_num_of_patient_medical_examinations (db : Snapshot) : Option Nat :=
  (orderByDesc (fun n => n) (patientExamCounts db)).head?

/-- PatientManager.filter_by_examined_hospital_workers(hospital_workers):
the subquery values("patient") of the examinations performed by a worker of
the list (examined_by__in compares the FK against the workers' primary
keys), then filter(id__in=subquery) on the patient table. -/
def filter_by_examined_hospital_workers (db : Snapshot)
    (hospital_workers : List HospitalWorker) : List Patient :=
  let sick_workers_patients :=
    (db.exams.filter (fun e =>
      hospital_workers.any (fun w => w.id == e.examined_by))).map (fun e => e.patient)
  db.patients.filter (fun p => sick_workers_patients.any (fun x => x == p.id))

/-! ## DepartmentManager -/

/-- The joined age column of Avg("patients_details__person__age") for one
department: one row per (patient of the department, its person) pair. -/
def agesOfDepartmentPatients (db : Snapshot) (d : Department) : List ℚ :=
  (db.patients.filter (fun p => p.department == d.id)).filterMap
    (fun p => (db.persons.find? (fun q => q.id == p.person)).map (fun q => (q.age : ℚ)))

/-- DepartmentManager.annotate_avg_age_of_patients, per department:
avg_age_of_patients = Avg("patients_details__person__age").  SQL AVG over an
empty set of joined rows is NULL, otherwise the arithmetic mean. -/
def annotate_avg_age_of_patients (db : Snapshot) (d : Department) : Option ℚ :=
  let ages := agesOfDepartmentPatients db d
  if ages.isEmpty then none else some (ages.sum / (ages.length : ℚ))

/-! ## HospitalManager -/

/-- The join rows of the workers_in_risk subquery of
annotate_by_num_of_hospital_workers_in_risk_of_corona for the outer hospital
hid: HospitalWorker.objects.filter(person__age__gte=60,
department__hospital=OuterRef("id")).values("department__hospital", "id"),
i.e. the (hospital id, worker id) pair of every worker of the hospital whose
joined person is at least 60. -/
def workers_in_risk (db : Snapshot) (hid : Nat) : List (Nat × Nat) :=
  db.workers.filterMap (fun w =>
    match workerAge db w, workerHospital db w with
    | some a, some h => if 60 ≤ a ∧ h = hid then some (h, w.id) else none
    | _, _ => none)

/-- risk_per_hospital = workers_in_risk.annotate(risky_count=
Count("department__hospital")).values("risky_count").  Django pins GROUP BY
to the fields of the values() call that precedes annotate — here
(department__hospital, id), so one group per distinct (hospital, worker)
pair — and the .distinct() of workers_in_risk applies to the final selected
column, the counts. -/
def risk_per_hospital (db : Snapshot) (hid : Nat) : List Nat :=
  let rows := workers_in_risk db hid
  (rows.dedup.map (fun r => (rows.filter (fun x => x == r)).length)).dedup

/-- The num_of_hospital_workers_in_risk_of_corona annotation:
Subquery(risk_per_hospital): the first row of the subquery, NULL when the
subquery is empty. -/
def num_of_hospital_workers_in_risk_of_corona (db : Snapshot) (hid : Nat) :
    Option Nat :=
  (risk_per_hospital db hid).head?

/-- What the spec names riskWorkerCount(hospital, 60): the number of distinct
workers of the hospital whose linked person's age is at least 60. -/
def riskWorkerCount (db : Snapshot) (hid : Nat) : Nat :=
  ((db.workers.filter (fun w =>
    (match workerAge db w with | some a => decide (60 ≤ a) | none => false) &&
    workerHospital db w == some hid)).map (fun w => w.id)).dedup.length

/-- dead_corona_patient_details of annotate_by_num_of_dead_from_corona:
Patient.objects.annotate(is_dead=Subquery(patients[:1]),
reason_of_dead=Subquery(patients[1:2])).filter(is_dead=RESULT_DEAD,
reason_of_dead=RESULT_CORONA).  A NULL annotation (fewer than one or two
examinations) fails the equality filter under SQL three-valued logic. -/
def dead_corona_patient_details (db : Snapshot) : List Patient :=
  db.patients.filter (fun p =>
    resultAt db p.id 0 == some ExamResult.Dead &&
    resultAt db p.id 1 == some ExamResult.Corona)

/-- hospitals_per_dead_patient for the outer hospital hid:
dead_corona_patient_details.filter(department__hospital=OuterRef("id"))
.values("department__hospital").annotate(count=Count("id")).values("count"):
GROUP BY department__hospital (the values() fields preceding annotate) and
one COUNT(id) row per group. -/
def hospitals_per_dead_patient (db : Snapshot) (hid : Nat) : List Nat :=
  let rows := (dead_corona_patient_details db).filter
    (fun p => patientHospital db p == some hid)
  (rows.map (fun p => patientHospital db p)).dedup.map
    (fun k => (rows.filter (fun p => patientHospital db p == k)).length)

/-- The num_of_dead_from_corona annotation:
Coalesce(Subquery(hospitals_per_dead_patient), 0): the first row of the
subquery, with NULL coalesced to the integer 0. -/
def num_of_dead_from_corona (db : Snapshot) (hid : Nat) : Nat :=
  ((hospitals_per_dead_patient db hid).head?).getD 0

/-- What the spec names deadFromCauseCount(hospital, Corona): the number of
patients of the hospital whose latest examination result is Dead and whose
second-latest examination result is Corona. -/
def deadFromCoronaCount (db : Snapshot) (hid : Nat) : Nat :=
  (db.patients.filter (fun p =>
    patientHospital db p == some hid &&
    resultAt db p.id 0 == some ExamResult.Dead &&
    resultAt db p.id 1 == some ExamResult.Corona)).length

/-- The rows of the first_corona_time subquery of
annotate_hospitals_with_time_of_first_corona_sick, before ordering:
MedicalExaminationResult.objects.filter(
patient__department__hospital=OuterRef("id"), result=RESULT_CORONA). -/
def coronaExamsOfHospital (db : Snapshot) (hid : Nat) :
    List MedicalExaminationResult :=
  db.exams.filter (fun e =>
    examHospital db e == some hid && e.result == ExamResult.Corona)

/-- The first_corona_time annotation:
Subquery(....order_by("time").values("time")[:1]): the time of the first row
of the subquery in ascending time order, NULL when the hospital has no
Corona examination. -/
def first_corona_time (db : Snapshot) (hid : Nat) : Option Nat :=
  ((orderByAsc MedicalExaminationResult.time (coronaExamsOfHospital db hid)).map
    (fun e => e.time)).head?

/-! ## PersonManager -/

/-- The target_queryset of persons_with_multiple_jobs: all hospital workers,
restricted by filter(position__in=jobs) when jobs is given. -/
def targetWorkers (db : Snapshot) (jobs : Option (List Position)) :
    List HospitalWorker :=
  match jobs with
  | none => db.workers
  | some js => db.workers.filter (fun w => decide (w.position ∈ js))

/-- PersonManager.persons_with_multiple_jobs(jobs):
target_queryset.values("person_id").annotate(jobs=Count("person_id"))
.filter(jobs__gte=2).values("person_id") — GROUP BY person_id, keep the
groups of at least two rows — then Person.objects.filter(id__in=...). -/
def persons_with_multiple_jobs (db : Snapshot) (jobs : Option (List Position)) :
    List Person :=
  let target := targetWorkers db jobs
  let multiple_jobs_workers := ((target.map (fun w => w.person)).dedup).filter
    (fun pid => 2 ≤ (target.filter (fun w => w.person == pid)).length)
  db.persons.filter (fun q => multiple_jobs_workers.any (fun x => x == q.id))

/-! ## Worker ranking (HospitalWorkerManager) -/

/-- The count annotation of get_worker_performed_most_medical_examinations:
Count("medical_examination_results") per worker, the number of examinations
the worker performed. -/
def workerExamCount (db : Snapshot) (w : HospitalWorker) : Nat :=
  (db.exams.filter (fun e => e.examined_by == w.id)).length

/-- HospitalWorkerManager.get_worker_performed_most_medical_examinations(
filter_kwargs, exclude_kwargs): annotate each worker with its count, apply
filter(**filter_kwargs).exclude(**exclude_kwargs) — modelled as arbitrary
row predicates — then order_by("-count").first().  first() is None on an
empty queryset. -/
def get_worker_performed_most_medical_examinations (db : Snapshot)
    (filter_pred exclude_pred : HospitalWorker → Bool) : Option HospitalWorker :=
  let best_rows := (db.workers.filter filter_pred).filter (fun w => !(exclude_pred w))
  (orderByDesc (workerExamCount db) best_rows).head?

/-! ## Shared lemmas about the latest-result subquery -/

/-- Row 0 of the latest-exam subquery is the head of the time-descending
order of the patient's examinations, projected to its result. -/
theorem resultAt_zero (db : Snapshot) (pid : Nat) :
    resultAt db pid 0 =
      ((orderByDesc MedicalExaminationResult.time (examsOfPatient db pid)).head?).map
        (fun e => e.result) := by
  rw [resultAt, List.getElem?_map, ← List.head?_eq_getElem?]

/-- A patient with fewer than i+1 examinations has a NULL row i. -/
theorem resultAt_none_of_short (db : Snapshot) (pid : Nat) (i : Nat)
    (h : (examsOfPatient db pid).length ≤ i) : resultAt db pid i = none := by
  rw [resultAt]
  apply List.getElem?_eq_none
  rw [List.length_map]
  calc (orderByDesc MedicalExaminationResult.time (examsOfPatient db pid)).length
      = (examsOfPatient db pid).length := (List.perm_insertionSort _ _).length_eq
    _ ≤ i := h

/-! ## The claims -/

/-- Claim C1: a patient is in the sick cohort returned by
get_sick_patients iff its latest examination result (the result of an
examination of maximal time among the patient's examinations, the one the
latest_result subquery selects) exists and is neither Healthy nor Dead; a
patient with zero examinations is never in the sick cohort. -/
theorem C1_sick_patients (db : Snapshot) (p : Patient) :
    (p ∈ get_sick_patients db ↔
      p ∈ db.patients ∧ ∃ e, e ∈ examsOfPatient db p.id ∧
        (∀ x ∈ examsOfPatient db p.id, x.time ≤ e.time) ∧
        resultAt db p.id 0 = some e.result ∧
        e.result ≠ ExamResult.Healthy ∧ e.result ≠ ExamResult.Dead) ∧
    (examsOfPatient db p.id = [] → p ∉ get_sick_patients db) := by
  have hmain : p ∈ get_sick_patients db ↔
      p ∈ db.patients ∧ ∃ e, e ∈ examsOfPatient db p.id ∧
        (∀ x ∈ examsOfPatient db p.id, x.time ≤ e.time) ∧
        resultAt db p.id 0 = some e.result ∧
        e.result ≠ ExamResult.Healthy ∧ e.result ≠ ExamResult.Dead := by
    constructor
    · intro hmem
      obtain ⟨hp, hcond⟩ := List.mem_filter.mp hmem
      cases hres : resultAt db p.id 0 with
      | none => rw [hres] at hcond; simp [sickCond] at hcond
      | some r =>
        rw [hres] at hcond
        simp only [sickCond, Bool.and_eq_true, Bool.not_eq_true',
          beq_eq_false_iff_ne, ne_eq] at hcond
        have hres2 := hres
        rw [resultAt_zero] at hres2
        obtain ⟨e, hhead, hre⟩ := Option.map_eq_some'.mp hres2
        obtain ⟨hmem2, hmax⟩ := head_of_sorted_desc MedicalExaminationResult.time
          (List.perm_insertionSort _ _) (List.sorted_insertionSort _ _) hhead
        refine ⟨hp, e, hmem2, hmax, ?_, ?_, ?_⟩
        · rw [hre]
        · rw [hre]; exact hcond.1
        · rw [hre]; exact hcond.2
    · rintro ⟨hp, e, _, _, hres, hH, hD⟩
      refine List.mem_filter.mpr ⟨hp, ?_⟩
      rw [hres]
      simp only [sickCond, Bool.and_eq_true, Bool.not_eq_true',
        beq_eq_false_iff_ne, ne_eq]
      exact ⟨hH, hD⟩
  refine ⟨hmain, ?_⟩
  intro hnil hmem
  obtain ⟨_, hcond⟩ := List.mem_filter.mp hmem
  have hnone : resultAt db p.id 0 = none := by
    rw [resultAt, hnil]
    rfl
  rw [hnone] at hcond
  simp [sickCond] at hcond

/-- A snapshot with one hospital (id 1) holding one department and two
workers whose persons are 70 and 65 years old: two distinct workers in the
60+ risk group. -/
def riskBugDb : Snapshot :=
  ⟨[⟨1, "General", "TLV"⟩], [⟨1, "Cardiology", 1⟩],
   [⟨1, "A", 70, Gender.Male⟩, ⟨2, "B", 65, Gender.Female⟩],
   [⟨1, 1, 1, Position.Doctor⟩, ⟨2, 2, 1, Position.Nurse⟩],
   [], []⟩

/-- Claim C2: the risk-worker annotation of
annotate_by_num_of_hospital_workers_in_risk_of_corona does NOT equal the
number of distinct workers aged 60+ across the hospital's departments: the
values("department__hospital", "id") call preceding annotate(Count(...))
makes Django GROUP BY the hospital AND the worker id, so every group counts
a single worker and the subquery collapses (after DISTINCT) to the single
value 1.  On a hospital with two risky workers the annotation is 1, not 2
(and it is NULL, not 0, on a hospital with none). -/
theorem C2_risk_count_groupby_bug :
    riskWorkerCount riskBugDb 1 = 2 ∧
    num_of_hospital_workers_in_risk_of_corona riskBugDb 1 = some 1 ∧
    num_of_hospital_workers_in_risk_of_corona riskBugDb 1 ≠
      some (riskWorkerCount riskBugDb 1) := by
  refine ⟨by decide, by decide, by decide⟩

theorem dedup_replicate_succ {α : Type} [DecidableEq α] (n : Nat) (c : α) :
    (List.replicate (n + 1) c).dedup = [c] := by
  induction n with
  | zero => simp
  | succ k ih =>
    rw [List.replicate_succ, List.dedup_cons_of_mem
      (List.mem_replicate.mpr ⟨Nat.succ_ne_zero k, rfl⟩), ih]

theorem dedup_map_const {α β : Type} [DecidableEq β] (l : List α) (f : α → β) (c : β)
    (hne : l ≠ []) (hall : ∀ x ∈ l, f x = c) : (l.map f).dedup = [c] := by
  have hrep : l.map f = List.replicate (l.map f).length c :=
    List.eq_replicate_of_mem (by
      intro b hb
      obtain ⟨a, ha, hfa⟩ := List.mem_map.mp hb
      rw [← hfa]; exact hall a ha)
  have hlen : (l.map f).length = l.length := List.length_map l f
  obtain ⟨a, t, rfl⟩ := List.exists_cons_of_ne_nil hne
  rw [hrep, hlen]
  exact dedup_replicate_succ t.length c

/-- Claim C3: the num_of_dead_from_corona annotation equals the number of
patients of the hospital whose latest examination result is Dead and whose
second-latest is Corona; a hospital with no qualifying patient (in
particular with zero patients) gets the integer 0, not NULL, and a patient
with fewer than two examinations has a NULL second row, so it is excluded by
the filter rather than raising. -/
theorem C3_dead_from_corona (db : Snapshot) (h : Hospital) :
    num_of_dead_from_corona db h.id = deadFromCoronaCount db h.id ∧
    ((∀ p ∈ db.patients, patientHospital db p ≠ some h.id) →
      num_of_dead_from_corona db h.id = 0) ∧
    (∀ p : Patient, (examsOfPatient db p.id).length < 2 →
      resultAt db p.id 1 = none) := by
  have hrows_eq : (dead_corona_patient_details db).filter
      (fun p => patientHospital db p == some h.id) =
      db.patients.filter (fun p =>
        patientHospital db p == some h.id &&
        resultAt db p.id 0 == some ExamResult.Dead &&
        resultAt db p.id 1 == some ExamResult.Corona) := by
    rw [dead_corona_patient_details, List.filter_filter]
    apply List.filter_congr
    intro x _
    rw [← Bool.and_assoc]
  have hallhosp : ∀ p ∈ (dead_corona_patient_details db).filter
      (fun p => patientHospital db p == some h.id),
      patientHospital db p = some h.id := by
    intro p hp
    exact beq_iff_eq.mp (List.mem_filter.mp hp).2
  have key : num_of_dead_from_corona db h.id =
      ((dead_corona_patient_details db).filter
        (fun p => patientHospital db p == some h.id)).length := by
    rw [num_of_dead_from_corona, hospitals_per_dead_patient]
    cases heq : (dead_corona_patient_details db).filter
        (fun p => patientHospital db p == some h.id) with
    | nil => rfl
    | cons p0 rest =>
      rw [heq] at hallhosp
      rw [dedup_map_const (p0 :: rest) (fun p => patientHospital db p) (some h.id)
        (List.cons_ne_nil _ _) hallhosp]
      simp only [List.map_singleton]
      rw [List.filter_eq_self.mpr (fun a ha => beq_iff_eq.mpr (hallhosp a ha))]
      rfl
  refine ⟨?_, ?_, ?_⟩
  · rw [key, hrows_eq, deadFromCoronaCount]
  · intro hno
    rw [key]
    have hnil : (dead_corona_patient_details db).filter
        (fun p => patientHospital db p == some h.id) = [] := by
      rw [hrows_eq]
      apply List.eq_nil_iff_forall_not_mem.mpr
      intro p hp
      obtain ⟨hpm, hcond⟩ := List.mem_filter.mp hp
      have hhosp : patientHospital db p = some h.id := by
        simp only [Bool.and_eq_true, beq_iff_eq] at hcond
        exact hcond.1.1
      exact hno p hpm hhosp
    rw [hnil]
    rfl
  · intro p hlt
    exact resultAt_none_of_short db p.id 1 (Nat.lt_succ_iff.mp hlt)

/-- The empty snapshot: no patients at all. -/
def emptyDb : Snapshot := ⟨[], [], [], [], [], []⟩

/-- Claim C4, counterexample to the empty-collection part: on an empty
patient collection .first() is None and the source's exams_king["exam_count"]
subscript raises a TypeError instead of returning 0 — the embedding of that
failing execution is none, which in particular is not some 0. -/
theorem C4_empty_crash_counterexample :
    emptyDb.patients = [] ∧
    get_highest_num_of_patient_medical_examinations emptyDb = none ∧
    get_highest_num_of_patient_medical_examinations emptyDb ≠ some 0 := by
  refine ⟨rfl, rfl, by decide⟩

/-- Claim C4 as amended: on a NONEMPTY patient collection,
get_highest_num_of_patient_medical_examinations returns the largest number
of examinations any single patient has; on an empty collection it does not
return 0 but fails (see the counterexample). -/
theorem C4_max_exam_count (db : Snapshot) (hne : db.patients ≠ []) :
    ∃ n, get_highest_num_of_patient_medical_examinations db = some n ∧
      n ∈ patientExamCounts db ∧ ∀ m ∈ patientExamCounts db, m ≤ n := by
  have hcne : patientExamCounts db ≠ [] := by
    rw [patientExamCounts]
    intro hc
    exact hne (List.map_eq_nil_iff.mp hc)
  have hsne : orderByDesc (fun n => n) (patientExamCounts db) ≠ [] := by
    intro hs
    exact hcne ((orderByDesc_eq_nil_iff _ _).mp hs)
  cases hh : (orderByDesc (fun n => n) (patientExamCounts db)).head? with
  | none => exact absurd (List.head?_eq_none_iff.mp hh) hsne
  | some n =>
    obtain ⟨hmem, hmax⟩ := head_of_sorted_desc (fun n => n)
      (List.perm_insertionSort _ _) (List.sorted_insertionSort _ _) hh
    exact ⟨n, hh, hmem, hmax⟩

/-- A snapshot with two patients holding 2 and 0 examinations. -/
def maxCountDb : Snapshot :=
  ⟨[], [], [], [],
   [⟨1, 1, 1⟩, ⟨2, 2, 1⟩],
   [⟨1, 5, 1, 1, ExamResult.Corona⟩, ⟨2, 7, 1, 1, ExamResult.Dead⟩]⟩

/-- Claim C4, witness: the amended theorem applied to a concrete nonempty
snapshot. -/
theorem C4_witness :
    maxCountDb.patients ≠ [] ∧
    ∃ n, get_highest_num_of_patient_medical_examinations maxCountDb = some n ∧
      n ∈ patientExamCounts maxCountDb ∧ ∀ m ∈ patientExamCounts maxCountDb, m ≤ n :=
  ⟨by decide, C4_max_exam_count maxCountDb (by decide)⟩

/-- Two examinations of the same patient sharing the timestamp 5. -/
def tieExamA : MedicalExaminationResult := ⟨1, 5, 1, 1, ExamResult.Corona⟩

/-- The tied partner of tieExamA, with a different id and result. -/
def tieExamB : MedicalExaminationResult := ⟨2, 5, 1, 1, ExamResult.Healthy⟩

/-- Claim C5, counterexample: order_by("-time") carries no secondary sort
key, so on two examinations sharing the maximal timestamp BOTH orders are
admissible executions of the very same query on the same snapshot, and the
two executions select different records — the code does not break the tie
by a stable secondary order. -/
theorem C5_tie_counterexample :
    tieExamA.time = tieExamB.time ∧
    ExecOrderByDesc MedicalExaminationResult.time [tieExamA, tieExamB]
      [tieExamA, tieExamB] ∧
    ExecOrderByDesc MedicalExaminationResult.time [tieExamA, tieExamB]
      [tieExamB, tieExamA] ∧
    ([tieExamA, tieExamB] : List MedicalExaminationResult).head? ≠
      [tieExamB, tieExamA].head? := by
  refine ⟨rfl, ⟨List.Perm.refl _, by decide⟩, ⟨List.Perm.swap _ _ _, by decide⟩, by decide⟩

/-- Claim C5 as amended: the code guarantees only that every admissible
execution of the latest-examination ordering selects an examination of
maximal time, and every admissible execution of the top-examiner ordering
selects a worker of maximal performed-examination count; which record of
several tied ones is selected is NOT determined by the code. -/
theorem C5_head_is_key_maximal :
    (∀ (l l2 : List MedicalExaminationResult) (e : MedicalExaminationResult),
      ExecOrderByDesc MedicalExaminationResult.time l l2 → l2.head? = some e →
        e ∈ l ∧ ∀ x ∈ l, x.time ≤ e.time) ∧
    (∀ (db : Snapshot) (l l2 : List HospitalWorker) (w : HospitalWorker),
      ExecOrderByDesc (workerExamCount db) l l2 → l2.head? = some w →
        w ∈ l ∧ ∀ x ∈ l, workerExamCount db x ≤ workerExamCount db w) :=
  ⟨fun _ _ _ h he => head_of_sorted_desc _ h.1 h.2 he,
   fun _ _ _ _ h he => head_of_sorted_desc _ h.1 h.2 he⟩

/-- The spec's average-age scenario: one department with three patients of
ages 30, 50 and 70 and one department with no patients. -/
def avgScenarioDb : Snapshot :=
  ⟨[⟨1, "H1", "TLV"⟩], [⟨1, "D1", 1⟩, ⟨2, "D2", 1⟩],
   [⟨1, "A", 30, Gender.Male⟩, ⟨2, "B", 50, Gender.Female⟩, ⟨3, "C", 70, Gender.Other⟩],
   [],
   [⟨1, 1, 1⟩, ⟨2, 2, 1⟩, ⟨3, 3, 1⟩],
   []⟩

/-- Claim C6: the avg_age_of_patients annotation of
annotate_avg_age_of_patients is NULL — not 0 and not an error — for a
department with zero patients (NULL exactly when the joined age column is
empty), and otherwise the arithmetic mean of the ages of the persons linked
to the department's patients (the unique m with m * count = sum); on the
spec's scenario the two departments get 50 and NULL. -/
theorem C6_avg_age :
    (∀ (db : Snapshot) (d : Department),
      ((∀ p ∈ db.patients, p.department ≠ d.id) →
        annotate_avg_age_of_patients db d = none) ∧
      (annotate_avg_age_of_patients db d = none ↔
        agesOfDepartmentPatients db d = []) ∧
      (∀ m : ℚ, annotate_avg_age_of_patients db d = some m →
        agesOfDepartmentPatients db d ≠ [] ∧
        m * ((agesOfDepartmentPatients db d).length : ℚ) =
          (agesOfDepartmentPatients db d).sum)) ∧
    annotate_avg_age_of_patients avgScenarioDb ⟨1, "D1", 1⟩ = some 50 ∧
    annotate_avg_age_of_patients avgScenarioDb ⟨2, "D2", 1⟩ = none := by
  refine ⟨?_, ?_, ?_⟩
  · intro db d
    have hiff : annotate_avg_age_of_patients db d = none ↔
        agesOfDepartmentPatients db d = [] := by
      rw [annotate_avg_age_of_patients]
      by_cases hemp : agesOfDepartmentPatients db d = []
      · simp [hemp]
      · simp [hemp, List.isEmpty_iff]
    refine ⟨?_, hiff, ?_⟩
    · intro hno
      apply hiff.mpr
      rw [agesOfDepartmentPatients]
      have hp : db.patients.filter (fun p => p.department == d.id) = [] := by
        apply List.eq_nil_iff_forall_not_mem.mpr
        intro p hp
        obtain ⟨hpm, hdep⟩ := List.mem_filter.mp hp
        exact hno p hpm (beq_iff_eq.mp hdep)
      rw [hp]
      rfl
    · intro m hm
      have hne : agesOfDepartmentPatients db d ≠ [] := by
        intro hemp
        rw [hiff.mpr hemp] at hm
        cases hm
      refine ⟨hne, ?_⟩
      have hval : m = (agesOfDepartmentPatients db d).sum /
          ((agesOfDepartmentPatients db d).length : ℚ) := by
        rw [annotate_avg_age_of_patients] at hm
        simp [hne, List.isEmpty_iff] at hm
        exact hm.symm
      rw [hval]
      apply div_mul_cancel₀
      have : (agesOfDepartmentPatients db d).length ≠ 0 := by
        intro h0
        exact hne (List.length_eq_zero.mp h0)
      exact_mod_cast this
  · simp [annotate_avg_age_of_patients, agesOfDepartmentPatients, avgScenarioDb,
      List.filter, List.filterMap, List.find?]
    norm_num
  · simp [annotate_avg_age_of_patients, agesOfDepartmentPatients, avgScenarioDb,
      List.filter, List.filterMap, List.find?]

/-- Claim C7: the first_corona_time annotation of
annotate_hospitals_with_time_of_first_corona_sick is NULL exactly when the
hospital's patients have no Corona examination, and otherwise the minimum
time over all the hospital's Corona examinations: a value t that is attained
and is a lower bound of all their times. -/
theorem C7_first_corona_time (db : Snapshot) (hid : Nat) :
    (first_corona_time db hid = none ↔ coronaExamsOfHospital db hid = []) ∧
    (∀ t : Nat, first_corona_time db hid = some t ↔
      ((∃ e ∈ coronaExamsOfHospital db hid, e.time = t) ∧
        ∀ e ∈ coronaExamsOfHospital db hid, t ≤ e.time)) := by
  have hform : first_corona_time db hid =
      ((orderByAsc MedicalExaminationResult.time (coronaExamsOfHospital db hid)).head?).map
        (fun e => e.time) := by
    rw [first_corona_time, List.head?_map]
  constructor
  · rw [hform]
    constructor
    · intro hnone
      exact (orderByAsc_eq_nil_iff _ _).mp
        (List.head?_eq_none_iff.mp (Option.map_eq_none'.mp hnone))
    · intro hnil
      rw [hnil]
      rfl
  · intro t
    rw [hform]
    constructor
    · intro hsome
      obtain ⟨e, hhead, hte⟩ := Option.map_eq_some'.mp hsome
      obtain ⟨hmem, hmin⟩ := head_of_sorted_asc MedicalExaminationResult.time
        (List.perm_insertionSort _ _) (List.sorted_insertionSort _ _) hhead
      refine ⟨⟨e, hmem, hte⟩, ?_⟩
      intro x hx
      rw [← hte]
      exact hmin x hx
    · rintro ⟨⟨e0, he0, ht0⟩, hlb⟩
      have hne : coronaExamsOfHospital db hid ≠ [] := by
        intro hc
        rw [hc] at he0
        exact List.not_mem_nil e0 he0
      have hsne : orderByAsc MedicalExaminationResult.time
          (coronaExamsOfHospital db hid) ≠ [] := by
        intro hs
        exact hne ((orderByAsc_eq_nil_iff _ _).mp hs)
      cases hh : (orderByAsc MedicalExaminationResult.time
          (coronaExamsOfHospital db hid)).head? with
      | none => exact absurd (List.head?_eq_none_iff.mp hh) hsne
      | some e1 =>
        obtain ⟨hmem1, hmin1⟩ := head_of_sorted_asc MedicalExaminationResult.time
          (List.perm_insertionSort _ _) (List.sorted_insertionSort _ _) hh
        have he1t : e1.time = t := by
          apply Nat.le_antisymm
          · rw [← ht0]
            exact hmin1 e0 he0
          · exact hlb e1 hmem1
        rw [Option.map_some']
        rw [he1t]

/-- The spec's multiple-roles scenario: one person holding a Nurse role in
one department and a Doctor role in another. -/
def multiJobsDb : Snapshot :=
  ⟨[⟨1, "H1", "TLV"⟩], [⟨1, "D1", 1⟩, ⟨2, "D2", 1⟩],
   [⟨1, "Q", 40, Gender.Other⟩],
   [⟨1, 1, 1, Position.Nurse⟩, ⟨2, 1, 2, Position.Doctor⟩],
   [], []⟩

/-- Claim C8: persons_with_multiple_jobs includes a person iff at least two
worker rows (raw multiplicity, counted per person id over the optionally
position-filtered worker table) belong to that person; on the spec's
scenario the Nurse-and-Doctor person is included with no filter and excluded
with the filter restricted to Doctor. -/
theorem C8_multiple_jobs :
    (∀ (db : Snapshot) (jobs : Option (List Position)) (q : Person),
      q ∈ persons_with_multiple_jobs db jobs ↔
        q ∈ db.persons ∧
        2 ≤ ((targetWorkers db jobs).filter (fun w => w.person == q.id)).length) ∧
    (⟨1, "Q", 40, Gender.Other⟩ : Person) ∈ persons_with_multiple_jobs multiJobsDb none ∧
    (⟨1, "Q", 40, Gender.Other⟩ : Person) ∉
      persons_with_multiple_jobs multiJobsDb (some [Position.Doctor]) := by
  refine ⟨?_, by decide, by decide⟩
  intro db jobs q
  rw [persons_with_multiple_jobs]
  simp only [List.mem_filter, List.any_eq_true, beq_iff_eq, List.mem_dedup,
    List.mem_map, decide_eq_true_eq]
  constructor
  · rintro ⟨hq, x, ⟨⟨w, hw, hwp⟩, hcount⟩, hx⟩
    subst hx
    exact ⟨hq, hcount⟩
  · rintro ⟨hq, hcount⟩
    refine ⟨hq, q.id, ⟨?_, hcount⟩, rfl⟩
    have hne : (targetWorkers db jobs).filter (fun w => w.person == q.id) ≠ [] := by
      intro hnil
      rw [hnil] at hcount
      exact absurd hcount (by decide)
    obtain ⟨w, hw⟩ := List.exists_mem_of_ne_nil _ hne
    obtain ⟨hwt, hwp⟩ := List.mem_filter.mp hw
    exact ⟨w, hwt, beq_iff_eq.mp hwp⟩

/-- Claim C9: filter_by_examinations_results_options returns exactly the
patients having at least one examination (not necessarily the latest) whose
result is in the given set, and each such patient occurs exactly once in the
output. -/
theorem C9_filter_by_results (db : Snapshot) (results : List ExamResult) :
    (∀ p : Patient, p ∈ filter_by_examinations_results_options db results ↔
      p ∈ db.patients ∧ ∃ e ∈ db.exams, e.patient = p.id ∧ e.result ∈ results) ∧
    (∀ p ∈ filter_by_examinations_results_options db results,
      (filter_by_examinations_results_options db results).count p = 1) := by
  constructor
  · intro p
    rw [filter_by_examinations_results_options, List.mem_dedup, List.mem_flatMap]
    constructor
    · rintro ⟨a, ha, hpm⟩
      obtain ⟨e, he, hea⟩ := List.mem_map.mp hpm
      obtain ⟨hee, hcond⟩ := List.mem_filter.mp he
      simp only [Bool.and_eq_true, beq_iff_eq, decide_eq_true_eq] at hcond
      have hap : a = p := hea
      subst hap
      exact ⟨ha, e, hee, hcond.1, hcond.2⟩
    · rintro ⟨hp, e, he, hpat, hres⟩
      refine ⟨p, hp, ?_⟩
      apply List.mem_map.mpr
      refine ⟨e, ?_, rfl⟩
      apply List.mem_filter.mpr
      refine ⟨he, ?_⟩
      simp only [Bool.and_eq_true, beq_iff_eq, decide_eq_true_eq]
      exact ⟨hpat, hres⟩
  · intro p hp
    exact List.count_eq_one_of_mem (List.nodup_dedup _) hp

/-- Claim C10: filter_by_examined_hospital_workers returns exactly the
patients with at least one examination performed by a worker of the given
list; the filter runs on the patient table itself (the IN subquery does not
multiply rows), so a patient occurs in the output at most as often as in the
patient table — exactly once when that table has no duplicate rows — even
when several of its examinations match. -/
theorem C10_examined_by_workers (db : Snapshot)
    (hospital_workers : List HospitalWorker) :
    (∀ p : Patient, p ∈ filter_by_examined_hospital_workers db hospital_workers ↔
      p ∈ db.patients ∧ ∃ e ∈ db.exams, e.patient = p.id ∧
        ∃ w ∈ hospital_workers, w.id = e.examined_by) ∧
    (∀ p : Patient,
      (filter_by_examined_hospital_workers db hospital_workers).count p ≤
        db.patients.count p) ∧
    (db.patients.Nodup →
      ∀ p ∈ filter_by_examined_hospital_workers db hospital_workers,
        (filter_by_examined_hospital_workers db hospital_workers).count p = 1) := by
  refine ⟨?_, ?_, ?_⟩
  · intro p
    rw [filter_by_examined_hospital_workers]
    simp only [List.mem_filter, List.any_eq_true, List.mem_map, beq_iff_eq]
    constructor
    · rintro ⟨hp, x, ⟨e, ⟨hee, w, hw, hwid⟩, hex⟩, hxp⟩
      exact ⟨hp, e, hee, by rw [hex, hxp], w, hw, hwid⟩
    · rintro ⟨hp, e, he, hpat, w, hw, hwid⟩
      exact ⟨hp, e.patient, ⟨e, ⟨he, w, hw, hwid⟩, rfl⟩, hpat⟩
  · intro p
    simp only [filter_by_examined_hospital_workers]
    exact List.Sublist.count_le (List.filter_sublist _) p
  · intro hnd p hp
    apply List.count_eq_one_of_mem ?_ hp
    simp only [filter_by_examined_hospital_workers]
    exact hnd.filter _
